import Mathlib

/-
Verification of the client-side progress/spaced-repetition engine and the
conversation session state machine of the english-learning-app repository.

The JavaScript sources are embedded shallowly:

* `ProgressTracker` (progress tracker file): the SM-2 style spaced-repetition
  scheduler (`addSpacedRepetitionItem`, `updateSpacedRepetitionItem`,
  `getDueSpacedRepetitionItems`), per-topic progress
  (`updateConversationProgress`, `completeTopic`) and the activity streak
  (`updateActivityStreak`).
* `ConversationManager` (conversation file): `sendMessage` failure
  classification and the voice-recording lifecycle (`toggleVoiceInput`,
  `startVoiceInput`, `stopVoiceInput`).

Conventions of the embedding:

* JavaScript numbers are modelled exactly: integers as `Int`/`Nat` and the
  `ease_factor` float as `Rat`.  Every concrete value appearing in a theorem
  below is far enough from a rounding boundary that IEEE-754 double
  arithmetic and exact rational arithmetic agree on the rounded results
  (the arguments of `Math.round` reached in the theorems are 16.2, 44.8,
  130.5 and 393, whose float counterparts round identically).
* `Math.round` rounds half toward positive infinity; `jsRound` mirrors that.
* `Math.max` is `jsMax`; `String.prototype.trim` is `jsTrim` (structural, so
  it evaluates in the kernel); `String.prototype.includes` is `jsIncludes`.
* Timestamps and calendar days are integers (milliseconds for `next_review`,
  day numbers for the streak dates; `toDateString` equality becomes equality
  of day numbers).
* The real methods mutate `this` and return `undefined`; the embedding turns
  each into a pure function from the touched state to the updated state,
  with the wall clock and every awaited network response passed in as
  arguments.  DOM-only effects (scrolling, placeholders, button styling)
  are represented only where a claim mentions them (the input-disabled flag,
  the recording page lock) or as emitted actions.
-/

/- Constants from CONFIG.SPACED_REPETITION in config_pythonanywhere.js. -/

def INITIAL_INTERVAL : ℤ := 1

def EASY_FACTOR : ℚ := 5 / 2

def MIN_FACTOR : ℚ := 13 / 10

def MIN_INTERVAL : ℤ := 1

def MAX_INTERVAL : ℤ := 365

/-- Milliseconds in a day, the `24 * 60 * 60 * 1000` of the source. -/
def msPerDay : ℤ := 86400000

/-- JavaScript `Math.round`: half-integers round toward positive infinity. -/
def jsRound (x : ℚ) : ℤ := ⌊x + 1 / 2⌋

/-- JavaScript `Math.max` on two numbers. -/
def jsMax (a b : ℚ) : ℚ := if a < b then b else a

/-- A spaced-repetition item (the fields the scheduler reads or writes;
`id`, `phrase`, `translation`, `topic` and `created_at` are carried by the
store key and play no part in scheduling). -/
structure SRItem where
  interval : ℤ
  repetitions : ℕ
  ease_factor : ℚ
  next_review : ℤ
  last_reviewed : Option ℤ
deriving DecidableEq, Repr

/-- ProgressTracker.addSpacedRepetitionItem: a fresh item has
interval `INITIAL_INTERVAL`, repetitions 0, ease factor `EASY_FACTOR` and
`next_review = now + INITIAL_INTERVAL` days. -/
def addSpacedRepetitionItem (now : ℤ) : SRItem :=
  { interval := INITIAL_INTERVAL
    repetitions := 0
    ease_factor := EASY_FACTOR
    next_review := now + INITIAL_INTERVAL * msPerDay
    last_reviewed := none }

/-- The ease-factor update applied on every review:
`max(MIN_FACTOR, ef + (0.1 - (5 - quality) * (0.08 + (5 - quality) * 0.02)))`. -/
def newEaseFactor (ef : ℚ) (quality : ℤ) : ℚ :=
  jsMax MIN_FACTOR (ef + (1 / 10 - (5 - quality) * (2 / 25 + (5 - quality) * (1 / 50))))

/-- The interval chosen on a successful (`quality >= 3`) review, after
`item.repetitions++` has run: 1 on the first repetition, 6 on the second,
`Math.round(interval * ease_factor)` afterwards.  The ease factor used is
the one stored before this review, because the source updates
`item.ease_factor` only after computing the interval. -/
def nextIntervalSuccess (item : SRItem) : ℤ :=
  if item.repetitions + 1 = 1 then 1
  else if item.repetitions + 1 = 2 then 6
  else jsRound (item.interval * item.ease_factor)

/-- ProgressTracker.updateSpacedRepetitionItem, given an existing item.
The source increments `repetitions`, branches on `quality >= 3` (resetting
`repetitions` to 0 and `interval` to 1 on failure), updates the ease factor,
and sets `next_review = now + interval` days.  No bound is applied to the
interval and `quality` is not validated. -/
def updateSpacedRepetitionItem (item : SRItem) (quality now : ℤ) : SRItem :=
  let intv := if 3 ≤ quality then nextIntervalSuccess item else 1
  { interval := intv
    repetitions := if 3 ≤ quality then item.repetitions + 1 else 0
    ease_factor := newEaseFactor item.ease_factor quality
    next_review := now + intv * msPerDay
    last_reviewed := some now }

/-- The spaced-repetition store `spacedRepetitionData.items`: a JavaScript
object, modelled as an insertion-ordered association list. -/
def SRStore : Type := List (String × SRItem)

/-- Lookup `this.spacedRepetitionData.items[itemId]`. -/
def findSRItem (store : SRStore) (itemId : String) : Option SRItem :=
  (List.find? (fun p => p.1 = itemId) store).map Prod.snd

/-- Store-level ProgressTracker.updateSpacedRepetitionItem: on an unknown
`itemId` the source hits `if (!item) return;` and leaves the store untouched;
otherwise the found item is updated in place. -/
def updateSRStore (store : SRStore) (itemId : String) (quality now : ℤ) : SRStore :=
  match findSRItem store itemId with
  | none => store
  | some _ =>
      List.map (fun p => if p.1 = itemId then (p.1, updateSpacedRepetitionItem p.2 quality now) else p) store

/-- ProgressTracker.getDueSpacedRepetitionItems: collect the values whose
`next_review <= now`, then sort ascending by `next_review` (the comparator
`new Date(a.next_review) - new Date(b.next_review)`).  The method reads the
store and builds a fresh array, so it is a pure function of the store and
the clock. -/
def getDueSpacedRepetitionItems (store : SRStore) (now : ℤ) : List SRItem :=
  (List.filter (fun it => decide (it.next_review ≤ now)) (List.map Prod.snd store)).mergeSort
    (fun a b => decide (a.next_review ≤ b.next_review))

/-- The item state after a fresh item is reviewed `n` times with quality 5
(reviews at time 0; Scenario A of the spec). -/
def reviewAll5 : ℕ → SRItem
  | 0 => addSpacedRepetitionItem 0
  | n + 1 => updateSpacedRepetitionItem (reviewAll5 n) 5 0

/- Topic progress (ProgressTracker.updateConversationProgress / completeTopic).
The claims concern the per-topic record stored in
`this.progress.level_progress[topicId]`, so the embedding follows that record;
a missing record is `none`. -/

inductive TopicStatus where
  | not_started
  | in_progress
  | completed
deriving DecidableEq, Repr

/-- One `level_progress` record (the `difficulty_rating` field is never read
or written by the claimed operations and is omitted). -/
structure TopicRec where
  status : TopicStatus
  phrases_learned : ℕ
  conversations_completed : ℕ
  last_practiced : Option ℤ
  completion_date : Option ℤ
  practice_sessions : ℕ
deriving DecidableEq, Repr

/-- ProgressTracker.updateConversationProgress on a topic record: a missing
record is created with status `in_progress`; counters and `last_practiced`
advance; a `not_started` status moves to `in_progress` and any other status
is left alone. -/
def updateConversationProgress (now : ℤ) (tp : Option TopicRec) : TopicRec :=
  let t : TopicRec :=
    match tp with
    | none =>
        { status := .in_progress, phrases_learned := 0, conversations_completed := 0
          last_practiced := none, completion_date := none, practice_sessions := 0 }
    | some t => t
  let t :=
    { t with
      conversations_completed := t.conversations_completed + 1
      last_practiced := some now
      practice_sessions := t.practice_sessions + 1 }
  if t.status = .not_started then { t with status := .in_progress } else t

/-- ProgressTracker.completeTopic on a topic record: the source returns
silently on `if (!topicProgress) return;`, otherwise sets the status to
`completed` and stamps `completion_date`. -/
def completeTopic (now : ℤ) (tp : Option TopicRec) : Option TopicRec :=
  match tp with
  | none => none
  | some t => some { t with status := .completed, completion_date := some now }

/-- The operations of the claimed topic state machine. -/
inductive TopicOp where
  | updateConversation (now : ℤ)
  | complete (now : ℤ)

def applyTopicOp (op : TopicOp) (tp : Option TopicRec) : Option TopicRec :=
  match op with
  | .updateConversation now => some (updateConversationProgress now tp)
  | .complete now => completeTopic now tp

def applyTopicOps (ops : List TopicOp) (tp : Option TopicRec) : Option TopicRec :=
  List.foldl (fun s op => applyTopicOp op s) tp ops

/-- The status a topic id shows: a missing record is `not_started` (that is
how `initialiseLevelProgress` seeds records and how the UI reads absence). -/
def statusOf : Option TopicRec → TopicStatus
  | none => .not_started
  | some t => t.status

/-- The forward order of the status machine. -/
def statusRank : TopicStatus → ℕ
  | .not_started => 0
  | .in_progress => 1
  | .completed => 2

/- Activity streak (ProgressTracker.updateActivityStreak).  Calendar days are
integers; the source compares `toDateString()` values, which becomes equality
of day numbers; `yesterday` is `today - 1`. -/

structure StreakData where
  current_streak : ℕ
  longest_streak : ℕ
  last_activity_date : Option ℤ
  streak_start_date : Option ℤ
deriving DecidableEq, Repr

inductive StreakEvent where
  | week_streak
  | month_streak
deriving DecidableEq, Repr

/-- ProgressTracker.updateActivityStreak: a no-op when the last activity was
today; otherwise the streak advances (continues from yesterday or restarts
at 1), `last_activity_date` becomes today, and only when the new streak
beats `longest_streak` is the longest updated and a milestone achievement
emitted (`week_streak` at exactly 7, `month_streak` at exactly 30). -/
def updateActivityStreak (today : ℤ) (sd : StreakData) : StreakData × List StreakEvent :=
  if sd.last_activity_date = some today then (sd, [])
  else
    let cont := sd.last_activity_date = some (today - 1)
    let current := if cont then sd.current_streak + 1 else 1
    let start := if cont then sd.streak_start_date else some today
    if sd.longest_streak < current then
      ({ current_streak := current, longest_streak := current
         last_activity_date := some today, streak_start_date := start },
       if current = 7 then [.week_streak]
       else if current = 30 then [.month_streak]
       else [])
    else
      ({ current_streak := current, longest_streak := sd.longest_streak
         last_activity_date := some today, streak_start_date := start }, [])

/- ConversationManager.sendMessage and its failure classification. -/

/-- JavaScript `String.prototype.includes`. -/
def jsIncludes (s pat : String) : Bool :=
  List.any s.data.tails (fun t => List.isPrefixOf pat.data t)

/-- JavaScript `String.prototype.trim`, implemented structurally so that it
evaluates inside the kernel. -/
def jsTrim (s : String) : String :=
  ⟨(((s.data.dropWhile Char.isWhitespace).reverse.dropWhile Char.isWhitespace).reverse)⟩

inductive Sender where
  | user
  | ai
deriving DecidableEq, Repr

/-- One entry of `this.messages` (the wall-clock `timestamp` field plays no
part in any claim and is omitted). -/
structure ChatMsg where
  sender : Sender
  text : String
  farsiTranslation : Option String
deriving DecidableEq, Repr

/-- The ConversationManager fields that sendMessage touches, plus the
DOM-held input value and disabled flag it reads and writes. -/
structure ConvState where
  messages : List ChatMsg
  messageCount : ℕ
  isTutorTyping : Bool
  tutorHasGreeted : Bool
  inputDisabled : Bool
  conversationComplete : Bool
  inputValue : String
deriving DecidableEq, Repr

/-- ConversationManager.addMessage (its DOM work aside): append to
`this.messages`. -/
def addMessage (s : ConvState) (sender : Sender) (text : String)
    (farsi : Option String) : ConvState :=
  { s with messages := s.messages ++ [{ sender := sender, text := text, farsiTranslation := farsi }] }

/-- What `await this.sendToBackend(message)` came back with: a parsed JSON
body, or a thrown error carrying its `error.message` (a fetch-level network
failure throws `Failed to fetch`; a non-ok HTTP response makes sendToBackend
itself throw `HTTP error! status: N`). -/
inductive BackendOutcome where
  | ok (ai_response : Option String) (farsi_translation : Option String)
  | thrown (errorMessage : String)

/-- The error message sendToBackend throws on a non-ok HTTP status. -/
def httpErrorText (status : ℕ) : String :=
  "HTTP error! status: " ++ toString status

def cannotConnectText : String :=
  "❌ Cannot connect to the AI service. Please make sure the backend server is running."

def serverErrorText : String :=
  "⚠️ Server error occurred. Please try again later."

def connectionErrorText : String :=
  "❌ Connection error. Please check your internet connection and try again."

def cannotProcessText : String :=
  "I'm sorry, I couldn't process that. Please try again."

def completionText : String :=
  "🎉 Excellent work! You've demonstrated great progress in this topic. Your lesson is now complete and your XP has been saved. You can safely leave the conversation."

/-- The catch-branch classification of sendMessage: a message containing
`Failed to fetch` is a connectivity failure, one containing
`HTTP error! status: 500` a server failure, anything else generic. -/
def classifyErrorText (errorMessage : String) : String :=
  if jsIncludes errorMessage "Failed to fetch" then cannotConnectText
  else if jsIncludes errorMessage "HTTP error! status: 500" then serverErrorText
  else connectionErrorText

/-- ConversationManager.sendMessage.  Gated on `isTutorTyping` and
`tutorHasGreeted`; a trim-empty input returns untouched; otherwise the input
is cleared, the user message appended, `messageCount` incremented, typing
indicator shown and input disabled, and the awaited backend outcome handled:
a response with `ai_response` is appended (scanning for the
`LESSON_COMPLETE` sentinel), a response without one yields the apology
message, and a thrown error yields its classified message.  Every branch
removes the typing indicator and re-enables input. -/
def sendMessage (s : ConvState) (outcome : BackendOutcome) : ConvState :=
  if s.isTutorTyping || !s.tutorHasGreeted then s
  else
    let message := jsTrim s.inputValue
    if message = "" then s
    else
      let s1 := { s with inputValue := "" }
      let s2 := addMessage s1 .user message none
      let s3 := { s2 with messageCount := s2.messageCount + 1 }
      let s4 := { s3 with isTutorTyping := true, inputDisabled := true }
      match outcome with
      | .ok (some r) farsi =>
          let s5 := { s4 with isTutorTyping := false, inputDisabled := false }
          let s6 := addMessage s5 .ai r farsi
          if jsIncludes r "LESSON_COMPLETE" then
            addMessage { s6 with conversationComplete := true } .ai completionText none
          else s6
      | .ok none _ =>
          let s5 := { s4 with isTutorTyping := false, inputDisabled := false }
          addMessage s5 .ai cannotProcessText none
      | .thrown m =>
          let s5 := { s4 with isTutorTyping := false, inputDisabled := false }
          addMessage s5 .ai (classifyErrorText m) none

/- Voice-recording lifecycle (ConversationManager.toggleVoiceInput,
startVoiceInput, stopVoiceInput). -/

/-- The recording-related ConversationManager fields; `recordingLock` is the
`recording-active` class on `document.body`, `inputValue` the text box the
transcript is written into. -/
structure VoiceState where
  isTutorTyping : Bool
  tutorHasGreeted : Bool
  isListening : Bool
  recordingActive : Bool
  recordingLock : Bool
  inputValue : String
deriving DecidableEq, Repr

/-- Network and UI effects of the voice lifecycle, in order of occurrence.
`autoSubmit` stands for the un-awaited `this.sendMessage()` call made with
the transcript already written into the input box. -/
inductive VAction where
  | sttStartCall
  | sttStopCall
  | statusInfo
  | statusSuccess
  | statusWarning
  | statusError
  | autoSubmit (transcript : String)
deriving DecidableEq, Repr

/-- What `await fetch(.../api/stt/stop)` produced: a thrown error, or a JSON
body `{success, text, message}`. -/
inductive SttStopOutcome where
  | thrown
  | response (success : Bool) (text : Option String) (message : Option String)

/-- What `await fetch(.../api/stt/start)` produced. -/
inductive SttStartOutcome where
  | thrown
  | response (success : Bool) (recording : Bool)

/-- ConversationManager.stopVoiceInput.  Returns untouched unless listening;
otherwise calls the stop endpoint, handles the outcome (transcript
auto-submitted unless it is the filtered `LEGAL` sentinel or trim-empty;
classified status messages otherwise), and in the `finally` block always
clears `isListening`, `recordingActive` and the page lock. -/
def stopVoiceInput (s : VoiceState) (outcome : SttStopOutcome) : VoiceState × List VAction :=
  if !s.isListening then (s, [])
  else
    let finalize := fun (st : VoiceState) (acts : List VAction) =>
      ({ st with isListening := false, recordingActive := false, recordingLock := false },
       acts)
    match outcome with
    | .thrown => finalize s [.sttStopCall, .statusError]
    | .response success text message =>
        let transcript := jsTrim (text.getD "")
        if success && !(transcript = "") then
          if transcript = "LEGAL" then finalize s [.sttStopCall, .statusWarning]
          else finalize { s with inputValue := transcript } [.sttStopCall, .autoSubmit transcript]
        else if success then finalize s [.sttStopCall, .statusWarning]
        else if jsIncludes (message.getD "").toLower "no recording in progress" then
          finalize s [.sttStopCall]
        else finalize s [.sttStopCall, .statusError]

/-- ConversationManager.startVoiceInput.  Gated on the typing/greeting flags
and on not already listening; sets `isListening`, clears `recordingActive`,
locks the page, calls the start endpoint; on `{success, recording}` marks the
recording active, otherwise (including a throw) shows an error and falls back
to stopVoiceInput. -/
def startVoiceInput (s : VoiceState) (startO : SttStartOutcome) (stopO : SttStopOutcome) :
    VoiceState × List VAction :=
  if s.isTutorTyping || !s.tutorHasGreeted then (s, [])
  else if s.isListening then (s, [])
  else
    let s1 := { s with isListening := true, recordingActive := false, recordingLock := true }
    match startO with
    | .thrown =>
        let r := stopVoiceInput s1 stopO
        (r.1, [.statusInfo, .sttStartCall, .statusError] ++ r.2)
    | .response success recording =>
        if success && recording then
          ({ s1 with recordingActive := true }, [.statusInfo, .sttStartCall, .statusSuccess])
        else
          let r := stopVoiceInput s1 stopO
          (r.1, [.statusInfo, .sttStartCall, .statusError] ++ r.2)

/-- ConversationManager.toggleVoiceInput: gated on the typing/greeting flags;
when listening, a stop attempt before `recordingActive` is set only shows a
warning and returns; otherwise it stops, and when not listening it starts. -/
def toggleVoiceInput (s : VoiceState) (startO : SttStartOutcome) (stopO : SttStopOutcome) :
    VoiceState × List VAction :=
  if s.isTutorTyping || !s.tutorHasGreeted then (s, [])
  else if s.isListening then
    if !s.recordingActive then (s, [.statusWarning])
    else stopVoiceInput s stopO
  else startVoiceInput s startO stopO

/-
Theorems.  Each claim of the specification is settled below; amended
statements follow their counterexamples.
-/

/-- C1 counterexample: on a fresh item, the third quality-5 review sets the
interval to `Math.round(6 * 2.7) = 16`, not the `round(6 x 2.5) = 15` the
claim states — by the third review the ease factor has already been raised
to 2.7 by the two earlier reviews. -/
theorem scenarioA_third_interval_is_16 :
    (reviewAll5 3).interval = 16 ∧ (reviewAll5 3).interval ≠ 15 := by
  norm_num [reviewAll5, updateSpacedRepetitionItem, addSpacedRepetitionItem,
    nextIntervalSuccess, newEaseFactor, jsMax, jsRound, EASY_FACTOR, MIN_FACTOR,
    INITIAL_INTERVAL]

/-- C1 (amended): four successive quality-5 reviews of a fresh item produce
the interval sequence [1, 6, 16, 45] — the third interval is
`round(6 x 2.7)` and the fourth `round(16 x 2.8)`, each using the ease
factor already updated by the preceding reviews — and after every call the
ease factor equals the stated update formula applied to the previous value
(trajectory 2.6, 2.7, 2.8, 2.9). -/
theorem scenarioA_trajectory :
    (reviewAll5 1).interval = 1 ∧ (reviewAll5 2).interval = 6 ∧
    (reviewAll5 3).interval = 16 ∧ (reviewAll5 4).interval = 45 ∧
    (reviewAll5 1).ease_factor = 13 / 5 ∧ (reviewAll5 2).ease_factor = 27 / 10 ∧
    (reviewAll5 3).ease_factor = 14 / 5 ∧ (reviewAll5 4).ease_factor = 29 / 10 ∧
    (reviewAll5 3).interval = jsRound (6 * (27 / 10)) ∧
    (reviewAll5 4).interval = jsRound (16 * (14 / 5)) ∧
    (reviewAll5 1).ease_factor = newEaseFactor (reviewAll5 0).ease_factor 5 ∧
    (reviewAll5 2).ease_factor = newEaseFactor (reviewAll5 1).ease_factor 5 ∧
    (reviewAll5 3).ease_factor = newEaseFactor (reviewAll5 2).ease_factor 5 ∧
    (reviewAll5 4).ease_factor = newEaseFactor (reviewAll5 3).ease_factor 5 := by
  norm_num [reviewAll5, updateSpacedRepetitionItem, addSpacedRepetitionItem,
    nextIntervalSuccess, newEaseFactor, jsMax, jsRound, EASY_FACTOR, MIN_FACTOR,
    INITIAL_INTERVAL]

/-- C2: the code never clamps the interval to `[MIN_INTERVAL, MAX_INTERVAL]`
even though CONFIG.SPACED_REPETITION declares both bounds: six quality-5
reviews of a fresh item drive the interval to 393 > MAX_INTERVAL = 365. -/
theorem interval_exceeds_max_interval :
    (reviewAll5 6).interval = 393 ∧ MAX_INTERVAL < (reviewAll5 6).interval := by
  norm_num [reviewAll5, updateSpacedRepetitionItem, addSpacedRepetitionItem,
    nextIntervalSuccess, newEaseFactor, jsMax, jsRound, EASY_FACTOR, MIN_FACTOR,
    INITIAL_INTERVAL, MAX_INTERVAL]

/-- C5 counterexample: a review with quality 6 (outside [0,5]) raises no
error and does not leave the item unchanged — the source never validates
`quality`, so the out-of-range review is processed like any success:
repetitions become 1 and the ease factor 2.5 + 0.16 = 2.66. -/
theorem update_with_quality6_mutates :
    (updateSpacedRepetitionItem (addSpacedRepetitionItem 0) 6 0).repetitions = 1 ∧
    (updateSpacedRepetitionItem (addSpacedRepetitionItem 0) 6 0).ease_factor = 133 / 50 ∧
    updateSpacedRepetitionItem (addSpacedRepetitionItem 0) 6 0 ≠ addSpacedRepetitionItem 0 := by
  refine ⟨rfl, ?_, ?_⟩
  · norm_num [updateSpacedRepetitionItem, addSpacedRepetitionItem, newEaseFactor,
      jsMax, EASY_FACTOR, MIN_FACTOR]
  · intro h
    have := congrArg SRItem.repetitions h
    simp [updateSpacedRepetitionItem, addSpacedRepetitionItem] at this

/-- C5 (amended): `updateSpacedRepetitionItem` performs no validation of the
quality score: for any quality outside [0,5] the call completes normally,
stamps `last_reviewed`, and updates repetitions and the ease factor by the
same success/failure branches used for in-range scores; no InvalidInput
error exists in the code. -/
theorem update_out_of_range_no_error (item : SRItem) (quality now : ℤ)
    (h : quality < 0 ∨ 5 < quality) :
    (updateSpacedRepetitionItem item quality now).last_reviewed = some now ∧
    (updateSpacedRepetitionItem item quality now).ease_factor
      = newEaseFactor item.ease_factor quality ∧
    (updateSpacedRepetitionItem item quality now).interval
      = (updateSpacedRepetitionItem item (if 5 < quality then 5 else 0) now).interval ∧
    (updateSpacedRepetitionItem item quality now).repetitions
      = (updateSpacedRepetitionItem item (if 5 < quality then 5 else 0) now).repetitions := by
  rcases h with h | h
  · have h5 : ¬ (5 : ℤ) < quality := by omega
    have h3 : ¬ (3 : ℤ) ≤ quality := by omega
    refine ⟨rfl, rfl, ?_, ?_⟩ <;>
      simp [updateSpacedRepetitionItem, h5, h3]
  · have h3 : (3 : ℤ) ≤ quality := by omega
    refine ⟨rfl, rfl, ?_, ?_⟩ <;>
      simp [updateSpacedRepetitionItem, h, h3]

/-- C5 witness: the amended statement at quality 6 on a fresh item. -/
theorem update_out_of_range_no_error_witness :
    (updateSpacedRepetitionItem (addSpacedRepetitionItem 0) 6 0).last_reviewed = some 0 ∧
    (updateSpacedRepetitionItem (addSpacedRepetitionItem 0) 6 0).ease_factor
      = newEaseFactor (addSpacedRepetitionItem 0).ease_factor 6 ∧
    (updateSpacedRepetitionItem (addSpacedRepetitionItem 0) 6 0).interval
      = (updateSpacedRepetitionItem (addSpacedRepetitionItem 0)
          (if (5 : ℤ) < 6 then 5 else 0) 0).interval ∧
    (updateSpacedRepetitionItem (addSpacedRepetitionItem 0) 6 0).repetitions
      = (updateSpacedRepetitionItem (addSpacedRepetitionItem 0)
          (if (5 : ℤ) < 6 then 5 else 0) 0).repetitions :=
  update_out_of_range_no_error (addSpacedRepetitionItem 0) 6 0 (Or.inr (by norm_num))

/-- C6 counterexample: operating on an unknown id raises no NotFound error —
both operations return silently (`if (!item) return;` and
`if (!topicProgress) return;`) leaving the store untouched, rather than
failing. -/
theorem unknown_id_silent_noop :
    updateSRStore [] "item1" 5 0 = [] ∧ completeTopic 0 none = none := by
  exact ⟨rfl, rfl⟩

/-- C6 (amended): operating on an unknown id is a silent no-op: with no item
under `itemId`, `updateSpacedRepetitionItem` returns with the store
unchanged, and `completeTopic` on a topic with no progress record returns
with the record still absent; neither signals an error. -/
theorem unknown_id_noop (store : SRStore) (itemId : String) (quality now : ℤ)
    (h : findSRItem store itemId = none) :
    updateSRStore store itemId quality now = store ∧ completeTopic now none = none := by
  refine ⟨?_, rfl⟩
  unfold updateSRStore
  rw [h]

/-- C6 witness: the amended statement on a one-item store and a missing id. -/
theorem unknown_id_noop_witness :
    updateSRStore [("greetings_1", addSpacedRepetitionItem 0)] "missing" 4 0
      = [("greetings_1", addSpacedRepetitionItem 0)] ∧
    completeTopic 0 none = none :=
  unknown_id_noop [("greetings_1", addSpacedRepetitionItem 0)] "missing" 4 0 rfl

/-- Transitivity of the due-items comparator. -/
theorem dueLe_trans (a b c : SRItem)
    (hab : decide (a.next_review ≤ b.next_review) = true)
    (hbc : decide (b.next_review ≤ c.next_review) = true) :
    decide (a.next_review ≤ c.next_review) = true := by
  simp only [decide_eq_true_eq] at *
  exact le_trans hab hbc

/-- Totality of the due-items comparator. -/
theorem dueLe_total (a b : SRItem) :
    (decide (a.next_review ≤ b.next_review) || decide (b.next_review ≤ a.next_review)) = true := by
  simp only [Bool.or_eq_true, decide_eq_true_eq]
  exact le_total a.next_review b.next_review

/-- C3: `getDueSpacedRepetitionItems` returns exactly the stored items whose
`next_review <= now` (a permutation of that filter, hence also the stated
membership), sorted ascending by `next_review`.  The method is a pure
function of the store and the clock — it builds a fresh array and caches
nothing — so two calls with the same `now` against the same store give the
same list by construction. -/
theorem getDueSpacedRepetitionItems_spec (store : SRStore) (now : ℤ) :
    List.Perm (getDueSpacedRepetitionItems store now)
      (List.filter (fun it => decide (it.next_review ≤ now)) (List.map Prod.snd store)) ∧
    List.Pairwise (fun a b : SRItem => a.next_review ≤ b.next_review)
      (getDueSpacedRepetitionItems store now) ∧
    ∀ it : SRItem, it ∈ getDueSpacedRepetitionItems store now ↔
      it ∈ List.map Prod.snd store ∧ it.next_review ≤ now := by
  unfold getDueSpacedRepetitionItems
  refine ⟨List.mergeSort_perm _ _, ?_, ?_⟩
  · have h := List.sorted_mergeSort dueLe_trans dueLe_total
      (List.filter (fun it => decide (it.next_review ≤ now)) (List.map Prod.snd store))
    exact h.imp (fun hab => by simpa using hab)
  · intro it
    rw [(List.mergeSort_perm _ _).mem_iff, List.mem_filter]
    simp

/-- Each topic-progress operation moves the status forward in the order
not_started -> in_progress -> completed. -/
theorem statusRank_le_applyTopicOp (op : TopicOp) (tp : Option TopicRec) :
    statusRank (statusOf tp) ≤ statusRank (statusOf (applyTopicOp op tp)) := by
  cases op with
  | updateConversation now =>
      cases tp with
      | none => simp [applyTopicOp, updateConversationProgress, statusOf, statusRank]
      | some t =>
          cases h : t.status <;>
            simp [applyTopicOp, updateConversationProgress, statusOf, statusRank, h]
  | complete now =>
      cases tp with
      | none => simp [applyTopicOp, completeTopic, statusOf]
      | some t =>
          cases h : t.status <;>
            simp [applyTopicOp, completeTopic, statusOf, statusRank, h]

/-- C4: along any sequence of updateConversationProgress / completeTopic
operations a topic's status only moves forward along
not_started -> in_progress -> completed and never regresses; in particular a
completed topic stays completed under any further operation (namely
updateConversationProgress, which only promotes `not_started`). -/
theorem topic_status_monotone :
    (∀ (ops : List TopicOp) (tp : Option TopicRec),
      statusRank (statusOf tp) ≤ statusRank (statusOf (applyTopicOps ops tp))) ∧
    (∀ (op : TopicOp) (tp : Option TopicRec),
      statusOf tp = .completed → statusOf (applyTopicOp op tp) = .completed) := by
  constructor
  · intro ops
    induction ops with
    | nil => intro tp; simp [applyTopicOps]
    | cons op rest ih =>
        intro tp
        have h1 := statusRank_le_applyTopicOp op tp
        have h2 := ih (applyTopicOp op tp)
        simp only [applyTopicOps, List.foldl_cons] at *
        exact le_trans h1 h2
  · intro op tp h
    cases op with
    | updateConversation now =>
        cases tp with
        | none => simp [statusOf] at h
        | some t =>
            have ht : t.status = .completed := h
            simp [applyTopicOp, updateConversationProgress, statusOf, ht]
    | complete now =>
        cases tp with
        | none => simp [statusOf] at h
        | some t => simp [applyTopicOp, completeTopic, statusOf]

/-- C4 witness: a completed topic stays completed under a further
updateConversationProgress call. -/
theorem topic_status_monotone_witness :
    statusOf (applyTopicOp (.updateConversation 0)
      (some { status := .completed, phrases_learned := 3, conversations_completed := 1
              last_practiced := none, completion_date := some 0, practice_sessions := 1 }))
      = .completed :=
  topic_status_monotone.2 (.updateConversation 0)
    (some { status := .completed, phrases_learned := 3, conversations_completed := 1
            last_practiced := none, completion_date := some 0, practice_sessions := 1 }) rfl

/-- C7 counterexample: a call that raises the streak to exactly 7 emits no
week-streak achievement when an earlier streak already reached 10 — the
source only emits milestones inside the `current_streak > longest_streak`
branch, so the crossing is silent. -/
theorem streak7_no_event_when_longest_higher :
    (updateActivityStreak 100 ⟨6, 10, some 99, some 94⟩).1.current_streak = 7 ∧
    (updateActivityStreak 100 ⟨6, 10, some 99, some 94⟩).2 = [] := by
  decide

/-- C7 (amended): a week-streak (resp. month-streak) achievement is emitted
exactly when the advancing call sets current_streak to 7 (resp. 30) AND that
value beats the previous longest_streak; because longest_streak never
decreases and an emission pushes it to the milestone value, each milestone
is emitted at most once per crossing of a new record. -/
theorem streak_milestone_iff_new_record (today : ℤ) (sd : StreakData) :
    (StreakEvent.week_streak ∈ (updateActivityStreak today sd).2 ↔
      sd.last_activity_date ≠ some today ∧
      (updateActivityStreak today sd).1.current_streak = 7 ∧ sd.longest_streak < 7) ∧
    (StreakEvent.month_streak ∈ (updateActivityStreak today sd).2 ↔
      sd.last_activity_date ≠ some today ∧
      (updateActivityStreak today sd).1.current_streak = 30 ∧ sd.longest_streak < 30) ∧
    sd.longest_streak ≤ (updateActivityStreak today sd).1.longest_streak ∧
    (StreakEvent.week_streak ∈ (updateActivityStreak today sd).2 →
      7 ≤ (updateActivityStreak today sd).1.longest_streak) ∧
    (StreakEvent.month_streak ∈ (updateActivityStreak today sd).2 →
      30 ≤ (updateActivityStreak today sd).1.longest_streak) := by
  by_cases h1 : sd.last_activity_date = some today
  · simp [updateActivityStreak, h1]
  · by_cases hc : sd.last_activity_date = some (today - 1) <;>
      simp [updateActivityStreak, h1, hc] <;>
      split_ifs <;> simp_all <;> omega

/-- C7 witness: when the milestone does fire (streak 6 -> 7 beating a
longest of 6), the longest streak lands at 7. -/
theorem streak_milestone_witness :
    7 ≤ (updateActivityStreak 100 ⟨6, 6, some 99, some 94⟩).1.longest_streak :=
  (streak_milestone_iff_new_record 100 ⟨6, 6, some 99, some 94⟩).2.2.2.1 (by decide)

/-- C8 counterexample: a failed send does change `messageCount` — the
counter is incremented when the user message is appended, before the
backend call, and the catch branch does not roll it back: from a fresh
session a fetch-level failure leaves messageCount at 1, not 0. -/
theorem failed_send_increments_message_count :
    (sendMessage ⟨[], 0, false, true, false, false, "hello"⟩
      (.thrown "Failed to fetch")).messageCount = 1 ∧ (1 : ℕ) ≠ 0 := by
  exact ⟨rfl, by decide⟩

/-- C8 (amended): when the backend call of sendMessage throws, the same
failure handling appends the failure-classified message (connectivity for
`Failed to fetch`, server for `HTTP error! status: 500`, generic otherwise),
re-enables input and clears the typing flag; `messageCount` keeps exactly
the single increment from appending the user message — the failed send is
not retried and appends nothing beyond the user message and the one error
message. -/
theorem send_failure_classified_and_reenabled (s : ConvState) (m : String)
    (h1 : s.isTutorTyping = false) (h2 : s.tutorHasGreeted = true)
    (h3 : ¬ jsTrim s.inputValue = "") :
    (sendMessage s (.thrown m)).inputDisabled = false ∧
    (sendMessage s (.thrown m)).isTutorTyping = false ∧
    (sendMessage s (.thrown m)).messageCount = s.messageCount + 1 ∧
    (sendMessage s (.thrown m)).messages
      = s.messages ++ [⟨.user, jsTrim s.inputValue, none⟩, ⟨.ai, classifyErrorText m, none⟩] ∧
    classifyErrorText "Failed to fetch" = cannotConnectText ∧
    classifyErrorText (httpErrorText 500) = serverErrorText ∧
    classifyErrorText (httpErrorText 404) = connectionErrorText := by
  refine ⟨?_, ?_, ?_, ?_, by decide, by decide, by decide⟩ <;>
    simp [sendMessage, h1, h2, h3, addMessage]

/-- C8 witness: the amended statement on a fresh greeted session whose input
box holds `hi`, with a thrown error matching none of the specific shapes. -/
theorem send_failure_witness :
    (sendMessage ⟨[], 0, false, true, false, false, "hi"⟩ (.thrown "boom")).inputDisabled = false ∧
    (sendMessage ⟨[], 0, false, true, false, false, "hi"⟩ (.thrown "boom")).isTutorTyping = false ∧
    (sendMessage ⟨[], 0, false, true, false, false, "hi"⟩ (.thrown "boom")).messageCount = 0 + 1 ∧
    (sendMessage ⟨[], 0, false, true, false, false, "hi"⟩ (.thrown "boom")).messages
      = [] ++ [⟨.user, jsTrim "hi", none⟩, ⟨.ai, classifyErrorText "boom", none⟩] ∧
    classifyErrorText "Failed to fetch" = cannotConnectText ∧
    classifyErrorText (httpErrorText 500) = serverErrorText ∧
    classifyErrorText (httpErrorText 404) = connectionErrorText :=
  send_failure_classified_and_reenabled ⟨[], 0, false, true, false, false, "hi"⟩ "boom"
    rfl rfl (by decide)

/-- C9: while listening but before the `active` recording sub-state is
reached, a user stop request through toggleVoiceInput is rejected: the state
is returned unchanged (so the session is still listening) and the stop
endpoint is never called — whichever outcomes the two endpoints would have
produced. -/
theorem early_stop_rejected (s : VoiceState) (startO : SttStartOutcome)
    (stopO : SttStopOutcome)
    (h1 : s.isListening = true) (h2 : s.recordingActive = false) :
    (toggleVoiceInput s startO stopO).1 = s ∧
    VAction.sttStopCall ∉ (toggleVoiceInput s startO stopO).2 ∧
    (toggleVoiceInput s startO stopO).1.isListening = true := by
  cases hT : (s.isTutorTyping || !s.tutorHasGreeted) with
  | true => simp [toggleVoiceInput, hT, h1]
  | false => simp [toggleVoiceInput, hT, h1, h2]

/-- C9 witness: a listening-but-not-yet-active session with the tutor idle;
the toggle leaves it listening and issues no stop call. -/
theorem early_stop_rejected_witness :
    (toggleVoiceInput ⟨false, true, true, false, true, ""⟩ .thrown .thrown).1
      = ⟨false, true, true, false, true, ""⟩ ∧
    VAction.sttStopCall ∉ (toggleVoiceInput ⟨false, true, true, false, true, ""⟩ .thrown .thrown).2 ∧
    (toggleVoiceInput ⟨false, true, true, false, true, ""⟩ .thrown .thrown).1.isListening = true :=
  early_stop_rejected ⟨false, true, true, false, true, ""⟩ .thrown .thrown rfl rfl

/-- C10: whatever the stop endpoint does — throws, succeeds with or without
a transcript, or reports failure — stopVoiceInput on a listening session
always ends with `isListening` and `recordingActive` false and the
recording page lock released, because the resets sit in the `finally`
block; no error path can leave the session stuck in the recording state. -/
theorem stop_always_resets_recording_state (s : VoiceState) (outcome : SttStopOutcome)
    (h : s.isListening = true) :
    (stopVoiceInput s outcome).1.isListening = false ∧
    (stopVoiceInput s outcome).1.recordingActive = false ∧
    (stopVoiceInput s outcome).1.recordingLock = false := by
  cases outcome with
  | thrown => simp [stopVoiceInput, h]
  | response success text message =>
      simp only [stopVoiceInput, h, Bool.not_true, Bool.false_eq_true, if_false]
      split_ifs <;> simp

/-- C10 witness: a listening, active, page-locked session whose stop request
throws still comes back fully reset. -/
theorem stop_always_resets_witness :
    (stopVoiceInput ⟨false, true, true, true, true, ""⟩ .thrown).1.isListening = false ∧
    (stopVoiceInput ⟨false, true, true, true, true, ""⟩ .thrown).1.recordingActive = false ∧
    (stopVoiceInput ⟨false, true, true, true, true, ""⟩ .thrown).1.recordingLock = false :=
  stop_always_resets_recording_state ⟨false, true, true, true, true, ""⟩ .thrown rfl
